import Mathlib

/-!
Verification of the data-shaping core of `uhv6_dash.py`, an analytics
dashboard over two CSV tables (hospital-level and state-level unplanned
hospital visit measures).  Pure fragments of the script are shallowly
embedded: dataframes become lists of rows, missing values become
`Option`/`Value.absent`, numeric cells become `Rat`, and each
aggregation view becomes a Lean function translated from the
corresponding pandas expression.
-/

namespace UHV

/-! ### Data loading and cleaning (`load_data`, `load_state_level_data`) -/

/-- The sentinel list `na_vals` from `load_data` (uhv6_dash.py lines 21-29). -/
def na_vals : List String :=
  [ "Not Available"
  , "Not Applicable"
  , "NA"
  , ""
  , "Too Few to Report"
  , "Number of Cases Too Small"
  , "Number of cases too small" ]

/-- Numeric columns coerced by `load_data` (lines 32-39). -/
def hospital_num_cols : List String :=
  [ "Score"
  , "Denominator"
  , "Number of Patients"
  , "Number of Patients Returned"
  , "Lower Estimate"
  , "Higher Estimate" ]

/-- Numeric columns coerced by `load_state_level_data` (lines 50-59). -/
def state_num_cols : List String :=
  [ "Number of Hospitals Worse"
  , "Number of Hospitals Same"
  , "Number of Hospitals Better"
  , "Number of Hospitals Too Few"
  , "Number of Hospitals Fewer"
  , "Number of Hospitals Average"
  , "Number of Hospitals More"
  , "Number of Hospitals Too Small" ]

/-- The default missing-value markers of `pandas.read_csv`, which both
loaders call before any explicit cleaning; a raw cell equal to one of
these is already absent when `df.replace` / `pd.to_numeric` run. -/
def pandas_default_na : List String :=
  [ "", "#N/A", "#N/A N/A", "#NA", "-1.#IND", "-1.#QNAN", "-NaN", "-nan"
  , "1.#IND", "1.#QNAN", "<NA>", "N/A", "NA", "NULL", "NaN", "None"
  , "n/a", "nan", "null" ]

/-- A loaded dataframe cell: a retained string, a parsed number, or the
canonical absent marker (`np.nan`). -/
inductive Value where
  | str : String → Value
  | num : Rat → Value
  | absent : Value
deriving DecidableEq, Repr

/-- Consume leading digits: accumulated value, number of digits read,
rest of the input. -/
def digitsAux : List Char → Nat → Nat → Nat × Nat × List Char
  | [], v, n => (v, n, [])
  | c :: cs, v, n =>
    if c.isDigit then digitsAux cs (v * 10 + (c.toNat - 48)) (n + 1)
    else (v, n, c :: cs)

/-- Parse an unsigned decimal numeral (digits, optionally `.` and more
digits, at least one digit in total). -/
def parseUnsigned (cs : List Char) : Option Rat :=
  let p := digitsAux cs 0 0
  match p.2.2 with
  | [] => if p.2.1 = 0 then none else some (p.1 : Rat)
  | '.' :: rest =>
    let q := digitsAux rest 0 0
    if q.2.2.isEmpty ∧ 0 < p.2.1 + q.2.1 then
      some ((p.1 : Rat) + (q.1 : Rat) / (10 : Rat) ^ q.2.1)
    else none
  | _ => none

/-- Tolerant numeric parse modelling `pd.to_numeric(..., errors="coerce")`
on a single cell: optional sign then a decimal numeral; anything else
fails (and the caller coerces the failure to absent). -/
def parseNum (s : String) : Option Rat :=
  match s.data with
  | '-' :: rest => (parseUnsigned rest).map (fun q => -q)
  | '+' :: rest => parseUnsigned rest
  | cs => parseUnsigned cs

/-- `pd.read_csv` reading one raw cell: its default missing-value
markers become absent, every other string is kept. -/
def readCell (cell : String) : Value :=
  if cell ∈ pandas_default_na then Value.absent else Value.str cell

/-- `df.replace(na_vals, np.nan)` on one cell (line 30). -/
def replaceSentinel (v : Value) : Value :=
  match v with
  | Value.str s => if s ∈ na_vals then Value.absent else Value.str s
  | v => v

/-- `pd.to_numeric(df[c], errors="coerce")` on one cell (lines 40-42):
a string cell is parsed, an unparseable one becomes absent. -/
def toNumericCell (v : Value) : Value :=
  match v with
  | Value.str s =>
    match parseNum s with
    | some q => Value.num q
    | none => Value.absent
  | v => v

/-- One cell of `load_data` (lines 17-44): read, sentinel-replace, and
numerically coerce when the column is one of `hospital_num_cols`. -/
def loadCell (col cell : String) : Value :=
  let v := replaceSentinel (readCell cell)
  if col ∈ hospital_num_cols then toNumericCell v else v

/-- One cell of `load_state_level_data` (lines 46-65): read and
numerically coerce the counter columns; NO sentinel replacement. -/
def loadStateCell (col cell : String) : Value :=
  let v := readCell cell
  if col ∈ state_num_cols then toNumericCell v else v

/-- `load_data` over a raw CSV given as a header (column names) and raw
string rows. -/
def load_data (cols : List String) (rows : List (List String)) :
    List (List Value) :=
  rows.map (fun r => (cols.zip r).map (fun p => loadCell p.1 p.2))

/-- `load_state_level_data` over a raw CSV given as a header and raw
string rows. -/
def load_state_level_data (cols : List String) (rows : List (List String)) :
    List (List Value) :=
  rows.map (fun r => (cols.zip r).map (fun p => loadStateCell p.1 p.2))

/-- Column header used in the C1 counterexample: the state-level file's
schema (State, Measure Name, and the eight counters). -/
def stateColsEx : List String :=
  ["State", "Measure Name"] ++ state_num_cols

/-- A raw state-level row whose Measure Name cell is the sentinel
"Not Available". -/
def stateRowEx : List String :=
  ["AK", "Not Available", "12", "3", "0", "1", "2", "5", "4", "6"]

lemma toNumericCell_str_ne (t s : String) :
    toNumericCell (Value.str t) ≠ Value.str s := by
  simp only [toNumericCell]
  cases parseNum t <;> simp

lemma loadCell_no_sentinel (col cell s : String) (hs : s ∈ na_vals) :
    loadCell col cell ≠ Value.str s := by
  simp only [loadCell, readCell]
  by_cases hd : cell ∈ pandas_default_na
  · simp only [if_pos hd, replaceSentinel]
    by_cases hc : col ∈ hospital_num_cols <;> simp [hc, toNumericCell]
  · simp only [if_neg hd, replaceSentinel]
    by_cases hn : cell ∈ na_vals
    · simp only [if_pos hn]
      by_cases hc : col ∈ hospital_num_cols <;> simp [hc, toNumericCell]
    · simp only [if_neg hn]
      by_cases hc : col ∈ hospital_num_cols
      · simp only [if_pos hc]
        exact toNumericCell_str_ne cell s
      · simp only [if_neg hc]
        intro h
        injection h with h
        exact hn (h ▸ hs)

lemma parseNum_sentinel_none (s : String) (hs : s ∈ na_vals) :
    parseNum s = none := by
  fin_cases hs <;> decide

/--
C1 (counterexample): the claim asserts that NO sentinel string appears
verbatim in EITHER loaded table; but `load_state_level_data` performs no
sentinel replacement, so the sentinel "Not Available" in a non-numeric
column of the state-level table survives verbatim.
-/
theorem c1_state_sentinel_survives :
    "Not Available" ∈ na_vals ∧
      Value.str "Not Available" ∈
        (load_state_level_data stateColsEx [stateRowEx]).flatten := by
  decide

/--
C1 (amended): in the hospital-level table every sentinel cell is
replaced by the absent marker in every column, so no sentinel appears
verbatim there; in the state-level table only the eight numeric counter
columns are cleaned (sentinels there become absent through the tolerant
numeric coercion), while sentinels in other state-level columns are not
replaced.
-/
theorem c1_sentinels_cleaned (cols : List String) (rows : List (List String)) :
    (∀ row ∈ load_data cols rows, ∀ v ∈ row, ∀ s ∈ na_vals, v ≠ Value.str s) ∧
    (∀ col ∈ state_num_cols, ∀ s ∈ na_vals, loadStateCell col s = Value.absent) := by
  constructor
  · intro row hrow v hv s hs
    unfold load_data at hrow
    obtain ⟨r, _, hr⟩ := List.mem_map.mp hrow
    subst hr
    obtain ⟨p, _, hp⟩ := List.mem_map.mp hv
    subst hp
    exact loadCell_no_sentinel p.1 p.2 s hs
  · intro col hcol s hs
    simp only [loadStateCell, readCell, if_pos hcol]
    by_cases hd : s ∈ pandas_default_na
    · simp [if_pos hd, toNumericCell]
    · simp only [if_neg hd, toNumericCell, parseNum_sentinel_none s hs]

/-- Witness for C1's amended theorem at concrete inputs: a hospital
table whose cells were cleaned, and one cleaned state counter cell. -/
theorem c1_sentinels_cleaned_witness :
    (Value.absent ≠ Value.str "Not Available") ∧
      loadStateCell "Number of Hospitals Worse" "Not Available" = Value.absent :=
  ⟨(c1_sentinels_cleaned ["State", "Measure Name"]
        [["NA", "Not Available"]]).1
      [Value.absent, Value.absent] (by decide) Value.absent (by decide)
      "Not Available" (by decide),
    (c1_sentinels_cleaned [] []).2 "Number of Hospitals Worse" (by decide)
      "Not Available" (by decide)⟩

/-! ### Typed rows of the loaded tables -/

/-- One row of the loaded hospital-level table (`df_raw`): the columns
used by the dashboard, numeric ones already coerced (absent = `none`). -/
structure HospitalRow where
  facilityId : String
  facilityName : String
  state : String
  measureName : String
  score : Option Rat
  denominator : Option Rat
  numberOfPatients : Option Rat
  numberOfPatientsReturned : Option Rat
  lowerEstimate : Option Rat
  higherEstimate : Option Rat
  comparedToNational : Option String
deriving DecidableEq, Repr

/-- `MEASURE_GROUPS` (lines 71-94), as an association list preserving
the dict's insertion order. -/
def MEASURE_GROUPS : List (String × List String) :=
  [ ("EDAC – Excess Hospital Return Days",
      [ "Hospital return days for heart attack patients"
      , "Hospital return days for heart failure patients"
      , "Hospital return days for pneumonia patients" ])
  , ("Hospital-Wide Readmission Ratio",
      [ "Hybrid Hospital-Wide All-Cause Readmission Measure (HWR)" ])
  , ("Procedure / Outpatient Visit Rates",
      [ "Rate of unplanned hospital visits after colonoscopy (per 1,000 colonoscopies)"
      , "Rate of inpatient admissions for patients receiving outpatient chemotherapy"
      , "Rate of emergency department (ED) visits for patients receiving outpatient chemotherapy"
      , "Ratio of unplanned hospital visits after hospital outpatient surgery" ])
  , ("Condition-Specific 30-Day Readmission Rates",
      [ "Acute Myocardial Infarction (AMI) 30-Day Readmission Rate"
      , "Heart failure (HF) 30-Day Readmission Rate"
      , "Pneumonia (PN) 30-Day Readmission Rate"
      , "Rate of readmission for CABG"
      , "Rate of readmission for chronic obstructive pulmonary disease (COPD) patients"
      , "Rate of readmission after hip/knee replacement" ])
  ]

/-! ### Filter engine (lines 180-182) -/

/-- `df = df_raw[df_raw["Measure Name"].isin(selected_measures)]` then
`if selected_states: df = df[df["State"].isin(selected_states)]`.
An empty state selection means "all states". -/
def filterHospital (t : List HospitalRow)
    (selectedMeasures selectedStates : List String) : List HospitalRow :=
  let d := t.filter (fun r => selectedMeasures.contains r.measureName)
  if selectedStates.isEmpty then d
  else d.filter (fun r => selectedStates.contains r.state)

/-! ### KPI row (lines 195-206) -/

/-- The rows selected by `valid_score = df["Score"].notna()`. -/
def scoredRows (t : List HospitalRow) : List HospitalRow :=
  t.filter (fun r => r.score.isSome)

/-- `valid_score.mean()`: the fraction of rows with a non-absent score;
pandas yields NaN (here `none`) on an empty table. -/
def coverage (t : List HospitalRow) : Option Rat :=
  if t.isEmpty then none
  else some (((scoredRows t).length : Rat) / (t.length : Rat))

/-- `df.loc[valid_score, 'Score'].mean()` guarded by
`valid_score.any()` (lines 203-206); "N/A" is `none`. -/
def avgScore (t : List HospitalRow) : Option Rat :=
  let scores := (scoredRows t).filterMap (fun r => r.score)
  if scores.isEmpty then none
  else some (scores.sum / (scores.length : Rat))

/-- A sample hospital row for concrete instances. -/
def mkRow (fid st mname : String) (sc : Option Rat) : HospitalRow :=
  { facilityId := fid
  , facilityName := fid
  , state := st
  , measureName := mname
  , score := sc
  , denominator := none
  , numberOfPatients := none
  , numberOfPatientsReturned := none
  , lowerEstimate := none
  , higherEstimate := none
  , comparedToNational := none }

lemma scoredRows_length_le (t : List HospitalRow) :
    (scoredRows t).length ≤ t.length :=
  List.length_filter_le _ t

/--
C3 (counterexample): the claim ranges over every filtered hospital
table, but the empty filtered table (produced e.g. by an empty measure
selection) has coverage NaN (`none`), which is neither 0 nor in [0,1].
-/
theorem c3_empty_table_counterexample :
    filterHospital [mkRow "F1" "CA" "Rate of readmission for CABG" (some 3)] [] [] = [] ∧
      coverage (filterHospital
        [mkRow "F1" "CA" "Rate of readmission for CABG" (some 3)] [] []) = none := by
  constructor <;> rfl

/--
C3 (amended): for every NONEMPTY filtered hospital table the coverage
ratio is the number of rows with non-absent score divided by the total
number of rows, lies in [0,1], is 0 when every score is absent and 1
when no score is absent; on the empty table the coverage is absent
(pandas NaN), not 0.
-/
theorem c3_coverage_ratio (t : List HospitalRow) (h : t ≠ []) :
    ∃ q : Rat, coverage t = some q ∧
      q * (t.length : Rat) = ((scoredRows t).length : Rat) ∧
      0 ≤ q ∧ q ≤ 1 ∧
      ((∀ r ∈ t, r.score = none) → q = 0) ∧
      ((∀ r ∈ t, r.score ≠ none) → q = 1) := by
  have hne : ¬ t.isEmpty := by
    simpa [List.isEmpty_iff] using h
  have hlen : (0 : Rat) < (t.length : Rat) := by
    have : 0 < t.length := List.length_pos.mpr h
    exact_mod_cast this
  refine ⟨((scoredRows t).length : Rat) / (t.length : Rat), ?_, ?_, ?_, ?_, ?_, ?_⟩
  · simp [coverage, hne]
  · exact div_mul_cancel₀ _ (ne_of_gt hlen)
  · positivity
  · exact div_le_one_of_le₀ (by exact_mod_cast scoredRows_length_le t) (le_of_lt hlen)
  · intro hall
    have : scoredRows t = [] := by
      simp only [scoredRows, List.filter_eq_nil_iff]
      intro r hr
      simp [hall r hr]
    simp [this]
  · intro hall
    have : (scoredRows t).length = t.length := by
      simp only [scoredRows]
      rw [List.filter_length_eq_length]
      intro r hr
      have := hall r hr
      simpa [Option.isSome_iff_ne_none] using this
    rw [this]
    exact div_self (ne_of_gt hlen)

/-- Witness for C3's amended theorem: a concrete two-row table with one
scored row. -/
theorem c3_coverage_ratio_witness :
    ∃ q : Rat,
      coverage [mkRow "F1" "CA" "Rate of readmission for CABG" (some 3),
                mkRow "F2" "CA" "Rate of readmission for CABG" none] = some q ∧
      q * ((2 : Nat) : Rat) = ((1 : Nat) : Rat) ∧
      0 ≤ q ∧ q ≤ 1 ∧
      ((∀ r ∈ [mkRow "F1" "CA" "Rate of readmission for CABG" (some 3),
               mkRow "F2" "CA" "Rate of readmission for CABG" none],
          r.score = none) → q = 0) ∧
      ((∀ r ∈ [mkRow "F1" "CA" "Rate of readmission for CABG" (some 3),
               mkRow "F2" "CA" "Rate of readmission for CABG" none],
          r.score ≠ none) → q = 1) :=
  c3_coverage_ratio _ (by decide)

/-! ### Performance-category counts view (lines 260-276) -/

/-- `df_perf["Compared to National Display"] =
df_perf["Compared to National"].fillna("Not Available")` (lines 262-265). -/
def catDisplay (r : HospitalRow) : String :=
  r.comparedToNational.getD "Not Available"

/-- The distinct keys of
`df_perf.groupby(["Measure Name", "Compared to National Display"])`. -/
def perfKeys (t : List HospitalRow) : List (String × String) :=
  (t.map (fun r => (r.measureName, catDisplay r))).dedup

/-- `.groupby([...]).size()` at one key: the number of rows with that
(measure name, display category).  The groupby runs over ALL rows of
the filtered table `df` (`df_perf = df.copy()`), not only rows with a
non-absent score. -/
def perfCount (t : List HospitalRow) (m c : String) : Nat :=
  (t.filter (fun r => r.measureName = m ∧ catDisplay r = c)).length

/-- The performance-category count as the spec sentence words it
("for rows with non-absent score, ..."): the same count restricted to
score-bearing rows.  Defined only to compare against the code's
`perfCount`. -/
def perfCountSpec (t : List HospitalRow) (m c : String) : Nat :=
  perfCount (scoredRows t) m c

lemma sum_indicator_nodup {β : Type} [DecidableEq β] (c : β) :
    ∀ ks : List β, ks.Nodup → c ∈ ks →
      (ks.map (fun b => if c = b then 1 else 0)).sum = 1 := by
  intro ks
  induction ks with
  | nil => intro _ h; cases h
  | cons b ks ih =>
    intro hnd hc
    simp only [List.map_cons, List.sum_cons]
    by_cases hb : c = b
    · subst hb
      have hcn : c ∉ ks := (List.nodup_cons.mp hnd).1
      have hz : (ks.map (fun b => if c = b then 1 else 0)).sum = 0 := by
        apply List.sum_eq_zero
        intro x hx
        obtain ⟨b', hb', he⟩ := List.mem_map.mp hx
        by_cases h : c = b'
        · exact absurd (h ▸ hb') hcn
        · simp [h] at he
          exact he.symm
      simp [hz]
    · have hc' : c ∈ ks := by
        rcases List.mem_cons.mp hc with h | h
        · exact absurd h hb
        · exact h
      simp [hb, ih (List.nodup_cons.mp hnd).2 hc']

lemma sum_map_add_nat {β : Type} (f g : β → Nat) :
    ∀ ks : List β, (ks.map (fun b => f b + g b)).sum = (ks.map f).sum + (ks.map g).sum := by
  intro ks
  induction ks with
  | nil => rfl
  | cons b ks ih =>
    simp only [List.map_cons, List.sum_cons, ih]
    omega

lemma length_eq_sum_filter_keys {α β : Type} [DecidableEq β] (key : α → β) :
    ∀ (l : List α) (ks : List β), ks.Nodup → (∀ a ∈ l, key a ∈ ks) →
      (ks.map (fun b => (l.filter (fun a => key a = b)).length)).sum = l.length := by
  intro l
  induction l with
  | nil => intro ks _ _; simp
  | cons a l ih =>
    intro ks hnd hcov
    have hmem : key a ∈ ks := hcov a (by simp)
    have hcov' : ∀ x ∈ l, key x ∈ ks := fun x hx => hcov x (by simp [hx])
    have hsplit : ∀ b : β, ((a :: l).filter (fun x => key x = b)).length =
        (if key a = b then 1 else 0) + (l.filter (fun x => key x = b)).length := by
      intro b
      simp only [List.filter_cons]
      by_cases hb : key a = b
      · simp [hb]
        omega
      · simp [hb]
    have hmap : (ks.map (fun b => ((a :: l).filter (fun x => key x = b)).length)) =
        ks.map (fun b => (if key a = b then 1 else 0) +
          (l.filter (fun x => key x = b)).length) :=
      List.map_congr_left (fun b _ => hsplit b)
    rw [hmap,
      sum_map_add_nat (fun b => if key a = b then 1 else 0)
        (fun b => (l.filter (fun x => key x = b)).length) ks,
      sum_indicator_nodup (key a) ks hnd hmem, ih ks hnd hcov']
    simp [Nat.add_comm]

/--
C2 (counterexample): the claim restricts the view to rows with
non-absent score, but the code's groupby runs over `df_perf = df.copy()`,
all rows of the filtered table: a row with absent score and absent
category is counted under "Not Available", while the claim's reading
(`perfCountSpec`) would not count it.
-/
theorem c2_scoreless_row_counted :
    (mkRow "F1" "CA" "Rate of readmission for CABG" none).score = none ∧
      perfCount [mkRow "F1" "CA" "Rate of readmission for CABG" none]
        "Rate of readmission for CABG" "Not Available" = 1 ∧
      perfCountSpec [mkRow "F1" "CA" "Rate of readmission for CABG" none]
        "Rate of readmission for CABG" "Not Available" = 0 :=
  ⟨rfl, rfl, rfl⟩

/--
C2 (amended): the performance-category counts view is computed over ALL
rows of the filtered hospital table (scored or not); each row whose
"compared to national" category is absent is counted under the label
"Not Available"; no row is dropped (the counts over the view's keys
partition the whole table), and the output is the row count for every
(measure name, display category) pair.
-/
theorem c2_perf_counts (t : List HospitalRow) (m c : String) :
    ((perfKeys t).map (fun k => perfCount t k.1 k.2)).sum = t.length ∧
      perfCount t m c =
        (t.filter (fun r => r.measureName = m ∧
          (r.comparedToNational = some c ∨
            (r.comparedToNational = none ∧ c = "Not Available")))).length := by
  constructor
  · have h1 : (perfKeys t).map (fun k => perfCount t k.1 k.2) =
        (perfKeys t).map (fun k =>
          (t.filter (fun r => (r.measureName, catDisplay r) = k)).length) := by
      apply List.map_congr_left
      intro k _
      unfold perfCount
      congr 1
      apply List.filter_congr
      intro r _
      apply decide_eq_decide.mpr
      constructor
      · intro h
        exact Prod.ext_iff.mpr ⟨h.1, h.2⟩
      · intro h
        exact ⟨congrArg Prod.fst h, congrArg Prod.snd h⟩
    rw [h1]
    exact length_eq_sum_filter_keys (fun r => (r.measureName, catDisplay r)) t
      (perfKeys t) (List.nodup_dedup _)
      (fun a ha => List.mem_dedup.mpr (List.mem_map_of_mem _ ha))
  · unfold perfCount
    congr 1
    apply List.filter_congr
    intro r _
    apply decide_eq_decide.mpr
    apply and_congr_right
    intro _
    cases hc : r.comparedToNational <;> simp [catDisplay, hc, eq_comm]

/-! ### State average view (lines 340-345) -/

/-- `df[df["Score"].notna()].groupby("State")["Score"].mean()` applied
to an already score-filtered list: one (state, mean score) pair per
state occurring in the list.  (pandas sorts the group keys; the key
order is irrelevant to the properties stated here, so first-appearance
order is used.) -/
def stateAvgOf (l : List HospitalRow) : List (String × Rat) :=
  ((l.map (fun r => r.state)).dedup).map
    (fun s =>
      let scores := (l.filter (fun r => r.state = s)).filterMap (fun r => r.score)
      (s, scores.sum / (scores.length : Rat)))

/-- The state average view `state_avg` (lines 340-345). -/
def state_avg (t : List HospitalRow) : List (String × Rat) :=
  stateAvgOf (scoredRows t)

/--
C10 (confirmed): the state average view has a row for a state iff the
filtered table has a row for that state with a non-absent score, and
rows with an absent score never influence the view (appending one
leaves the view unchanged).
-/
theorem c10_state_avg_rows (t : List HospitalRow) (s : String) :
    ((∃ q : Rat, (s, q) ∈ state_avg t) ↔
      ∃ r ∈ t, r.state = s ∧ r.score.isSome) ∧
    (∀ r : HospitalRow, r.score = none → state_avg (t ++ [r]) = state_avg t) := by
  constructor
  · constructor
    · rintro ⟨q, hq⟩
      obtain ⟨s', hs', he⟩ := List.mem_map.mp hq
      have hss : s' = s := congrArg Prod.fst he
      subst hss
      have : s' ∈ (scoredRows t).map (fun r => r.state) := List.mem_dedup.mp hs'
      obtain ⟨r, hr, hrs⟩ := List.mem_map.mp this
      have hr' := List.mem_filter.mp hr
      exact ⟨r, hr'.1, hrs, by simpa using hr'.2⟩
    · rintro ⟨r, hr, hs, hsome⟩
      refine ⟨_, List.mem_map_of_mem _ (List.mem_dedup.mpr ?_)⟩
      exact hs ▸ List.mem_map_of_mem _
        (List.mem_filter.mpr ⟨hr, by simpa using hsome⟩)
  · intro r hr
    have h : scoredRows (t ++ [r]) = scoredRows t := by
      simp [scoredRows, List.filter_append, hr]
    simp only [state_avg, h]

/-- Witness for C10 at a concrete one-row table plus one absent-score
row. -/
theorem c10_state_avg_rows_witness :
    (∃ q : Rat, ("CA", q) ∈
      state_avg [mkRow "F1" "CA" "Rate of readmission for CABG" (some 3)]) ∧
    state_avg ([mkRow "F1" "CA" "Rate of readmission for CABG" (some 3)] ++
        [mkRow "F2" "TX" "Rate of readmission for CABG" none]) =
      state_avg [mkRow "F1" "CA" "Rate of readmission for CABG" (some 3)] :=
  ⟨(c10_state_avg_rows [mkRow "F1" "CA" "Rate of readmission for CABG" (some 3)]
      "CA").1.mpr
      ⟨mkRow "F1" "CA" "Rate of readmission for CABG" (some 3), by decide, rfl, rfl⟩,
    (c10_state_avg_rows [mkRow "F1" "CA" "Rate of readmission for CABG" (some 3)]
      "CA").2 (mkRow "F2" "TX" "Rate of readmission for CABG" none) rfl⟩

/-! ### Ranking view (lines 402-427) -/

/-- Score of an index-tagged row (only used on score-bearing rows). -/
def scoreOf (p : Nat × HospitalRow) : Rat := p.2.score.getD 0

/-- The descending-score sort relation of
`sort_values("Score", ascending=False)`. -/
def descByScore (a b : Nat × HospitalRow) : Prop := scoreOf b ≤ scoreOf a

/-- The ascending-score sort relation of `sort_values("Score")`. -/
def ascByScore (a b : Nat × HospitalRow) : Prop := scoreOf a ≤ scoreOf b

instance : DecidableRel descByScore :=
  fun a b => inferInstanceAs (Decidable (scoreOf b ≤ scoreOf a))

instance : DecidableRel ascByScore :=
  fun a b => inferInstanceAs (Decidable (scoreOf a ≤ scoreOf b))

instance : IsTotal (Nat × HospitalRow) descByScore :=
  ⟨fun a b => le_total (scoreOf b) (scoreOf a)⟩

instance : IsTrans (Nat × HospitalRow) descByScore :=
  ⟨fun _ _ _ h1 h2 => le_trans h2 h1⟩

instance : IsTotal (Nat × HospitalRow) ascByScore :=
  ⟨fun a b => le_total (scoreOf a) (scoreOf b)⟩

instance : IsTrans (Nat × HospitalRow) ascByScore :=
  ⟨fun _ _ _ h1 h2 => le_trans h1 h2⟩

/-- `ranked = df[df["Score"].notna()].sort_values("Score",
ascending=False)` (line 405); rows are tagged with their dataframe
index, which pandas carries through sorting (pandas' quicksort is
modelled by any score-descending reordering). -/
def ranked (t : List HospitalRow) : List (Nat × HospitalRow) :=
  List.insertionSort descByScore
    ((t.enum).filter (fun p => p.2.score.isSome))

/-- `ranked.head(10)`: "Lowest Performing Hospitals (Highest Scores)". -/
def worst10 (t : List HospitalRow) : List (Nat × HospitalRow) :=
  (ranked t).take 10

/-- `ranked.tail(10).sort_values("Score")`: "Best Performing Hospitals
(Lowest Scores)" (lines 417-421). -/
def best10 (t : List HospitalRow) : List (Nat × HospitalRow) :=
  List.insertionSort ascByScore ((ranked t).drop ((ranked t).length - 10))

lemma ranked_nodup (t : List HospitalRow) : (ranked t).Nodup := by
  have h1 : (t.enum).Nodup := by
    apply List.Nodup.of_map Prod.fst
    rw [List.enum_map_fst]
    exact List.nodup_range _
  have h2 : ((t.enum).filter (fun p => p.2.score.isSome)).Nodup :=
    h1.filter _
  exact ((List.perm_insertionSort descByScore _).nodup_iff).mpr h2

/--
C4 (confirmed): the "worst 10" list is in descending score order, the
"best 10" list is in ascending score order, and when the filtered table
has at least 20 scored rows the two lists are disjoint row sets.
-/
theorem c4_rankings (t : List HospitalRow) :
    (worst10 t).Sorted descByScore ∧
    (best10 t).Sorted ascByScore ∧
    (20 ≤ (ranked t).length → (worst10 t).Disjoint (best10 t)) := by
  refine ⟨?_, ?_, ?_⟩
  · exact List.Pairwise.sublist (List.take_sublist _ _)
      (List.sorted_insertionSort descByScore _)
  · exact List.sorted_insertionSort ascByScore _
  · intro h20
    have hd : (worst10 t).Disjoint ((ranked t).drop ((ranked t).length - 10)) :=
      List.disjoint_take_drop (ranked_nodup t) (by omega)
    intro a ha hb
    exact hd ha ((List.perm_insertionSort ascByScore _).mem_iff.mp hb)

/-- A 20-row table of scored rows for the C4 witness. -/
def rankRowsEx : List HospitalRow :=
  (List.range 20).map
    (fun i => mkRow "F" "CA" "Rate of readmission for CABG" (some (i : Rat)))

/-- Witness for C4 at a concrete table with 20 scored rows. -/
theorem c4_rankings_witness : (worst10 rankRowsEx).Disjoint (best10 rankRowsEx) :=
  (c4_rankings rankRowsEx).2.2 (by decide)

/-! ### Volume view (lines 297-332) -/

/-- The measure group name checked by `if selected_group != "EDAC – Excess
Hospital Return Days"` (line 298). -/
def edacGroup : String := "EDAC – Excess Hospital Return Days"

/-- `df_scatter = df.dropna(subset=["Score", "Number of Patients"])`
(line 307), rows tagged with their dataframe index. -/
def scatterRows (t : List HospitalRow) : List (Nat × HospitalRow) :=
  (t.enum).filter (fun p => p.2.score.isSome && p.2.numberOfPatients.isSome)

/-- `bubble_size = df_scatter["Number of Patients Returned"]
.fillna(df_scatter["Number of Patients"])` (lines 309-312). -/
def bubbleSize (r : HospitalRow) : Option Rat :=
  r.numberOfPatientsReturned.orElse (fun _ => r.numberOfPatients)

/-- "Number of Patients" of an index-tagged row (only used on rows
where it is present). -/
def npOf (p : Nat × HospitalRow) : Rat := p.2.numberOfPatients.getD 0

/-- The descending sort relation of
`sort_values("Number of Patients", ascending=False)`. -/
def descByNP (a b : Nat × HospitalRow) : Prop := npOf b ≤ npOf a

instance : DecidableRel descByNP :=
  fun a b => inferInstanceAs (Decidable (npOf b ≤ npOf a))

instance : IsTotal (Nat × HospitalRow) descByNP :=
  ⟨fun a b => le_total (npOf b) (npOf a)⟩

instance : IsTrans (Nat × HospitalRow) descByNP :=
  ⟨fun _ _ _ h1 h2 => le_trans h2 h1⟩

/-- `top_vol = df_scatter.sort_values("Number of Patients",
ascending=False).head(15)` (line 328). -/
def top_vol (t : List HospitalRow) : List (Nat × HospitalRow) :=
  (List.insertionSort descByNP (scatterRows t)).take 15

/-- Tab 2 (lines 297-332): for a non-EDAC group only the "not
applicable" notice is shown and nothing is computed (`none`); for the
EDAC group the scatter rows and the contributor table are computed. -/
def volumeView (g : String) (t : List HospitalRow) :
    Option (List (Nat × HospitalRow) × List (Nat × HospitalRow)) :=
  if g = edacGroup then some (scatterRows t, top_vol t) else none

/--
C7 (confirmed): the volume view signals "not applicable" for every
group other than EDAC and computes no data there; for EDAC it keeps
exactly the rows with both score and "number of patients" present,
derives the bubble size as "number of patients returned" when present
and "number of patients" otherwise, and the contributor table is the
top 15 of those rows by descending "number of patients".
-/
theorem c7_volume_view (g : String) (t : List HospitalRow) :
    (g ≠ edacGroup → volumeView g t = none) ∧
    volumeView edacGroup t = some (scatterRows t, top_vol t) ∧
    (∀ p : Nat × HospitalRow, p ∈ scatterRows t ↔
      p ∈ t.enum ∧ p.2.score.isSome ∧ p.2.numberOfPatients.isSome) ∧
    (∀ r : HospitalRow,
      (r.numberOfPatientsReturned.isSome →
        bubbleSize r = r.numberOfPatientsReturned) ∧
      (r.numberOfPatientsReturned = none → bubbleSize r = r.numberOfPatients)) ∧
    (top_vol t).Sorted descByNP ∧
    (top_vol t).length = min 15 (scatterRows t).length ∧
    (∀ p ∈ top_vol t, p ∈ scatterRows t) ∧
    (∀ p ∈ scatterRows t, p ∉ top_vol t → ∀ q ∈ top_vol t, npOf p ≤ npOf q) := by
  refine ⟨?_, ?_, ?_, ?_, ?_, ?_, ?_, ?_⟩
  · intro h
    simp [volumeView, h]
  · simp [volumeView]
  · intro p
    simp [scatterRows, List.mem_filter]
  · intro r
    constructor
    · intro h
      obtain ⟨v, hv⟩ := Option.isSome_iff_exists.mp h
      simp [bubbleSize, hv]
    · intro h
      simp [bubbleSize, h]
  · exact List.Pairwise.sublist (List.take_sublist _ _)
      (List.sorted_insertionSort descByNP _)
  · rw [top_vol, List.length_take,
      (List.perm_insertionSort descByNP (scatterRows t)).length_eq]
  · intro p hp
    exact (List.perm_insertionSort descByNP (scatterRows t)).mem_iff.mp
      (List.mem_of_mem_take hp)
  · intro p hp hpt q hq
    have hsorted := List.sorted_insertionSort descByNP (scatterRows t)
    set l := List.insertionSort descByNP (scatterRows t) with hl
    have hpl : p ∈ l := (List.perm_insertionSort descByNP _).mem_iff.mpr hp
    have hsplit : l = l.take 15 ++ l.drop 15 := (List.take_append_drop _ _).symm
    have hpd : p ∈ l.drop 15 := by
      rcases List.mem_append.mp (hsplit ▸ hpl) with h | h
      · exact absurd h hpt
      · exact h
    have hpair := List.pairwise_append.mp (hsplit ▸ hsorted)
    exact hpair.2.2 q hq p hpd

/-- Witness for C7: a non-EDAC group yields no volume data. -/
theorem c7_volume_view_witness :
    volumeView "Hospital-Wide Readmission Ratio" [] = none :=
  (c7_volume_view "Hospital-Wide Readmission Ratio" []).1 (by decide)

/-! ### State-level benchmark view (lines 437-584) -/

/-- One row of the loaded state-level table: state, measure name, and
the eight "Number of Hospitals ..." counters (absent = `none`). -/
structure StateRow where
  state : String
  measureName : String
  worse : Option Rat
  same : Option Rat
  better : Option Rat
  tooFew : Option Rat
  fewer : Option Rat
  average : Option Rat
  more : Option Rat
  tooSmall : Option Rat
deriving DecidableEq, Repr

/-- The eight state-level counter columns. -/
inductive StateCol where
  | worse | same | better | tooFew | fewer | average | more | tooSmall
deriving DecidableEq, Repr

/-- Cell lookup for a counter column. -/
def getCol (r : StateRow) : StateCol → Option Rat
  | .worse => r.worse
  | .same => r.same
  | .better => r.better
  | .tooFew => r.tooFew
  | .fewer => r.fewer
  | .average => r.average
  | .more => r.more
  | .tooSmall => r.tooSmall

/-- The column-name strings, as melt's `var_name="Performance"` values. -/
def stateColName : StateCol → String
  | .worse => "Number of Hospitals Worse"
  | .same => "Number of Hospitals Same"
  | .better => "Number of Hospitals Better"
  | .tooFew => "Number of Hospitals Too Few"
  | .fewer => "Number of Hospitals Fewer"
  | .average => "Number of Hospitals Average"
  | .more => "Number of Hospitals More"
  | .tooSmall => "Number of Hospitals Too Small"

/-- `STATE_BENCHMARK_CONFIG` (lines 437-497): the configured counter
columns per measure group, in order.  The per-column color assignments
are presentation-only and not modelled. -/
def STATE_BENCHMARK_CONFIG : List (String × List StateCol) :=
  [ ("EDAC – Excess Hospital Return Days",
      [.fewer, .average, .more, .tooSmall])
  , ("Hospital-Wide Readmission Ratio",
      [.better, .same, .worse, .tooSmall])
  , ("Procedure / Outpatient Visit Rates",
      [.better, .same, .worse, .tooSmall])
  , ("Condition-Specific 30-Day Readmission Rates",
      [.better, .same, .worse, .tooSmall]) ]

/-- `STATE_BENCHMARK_CONFIG[selected_group]["columns"]` guarded by the
`selected_group not in STATE_BENCHMARK_CONFIG` check (lines 520-525). -/
def benchmarkConfig (g : String) : Option (List StateCol) :=
  (STATE_BENCHMARK_CONFIG.find? (fun p => p.1 = g)).map (fun p => p.2)

/-- The state-table filter (lines 529-536), same shape as the hospital
filter: measures, then states when the state selection is nonempty. -/
def filterState (t : List StateRow)
    (selectedMeasures selectedStates : List String) : List StateRow :=
  let d := t.filter (fun r => selectedMeasures.contains r.measureName)
  if selectedStates.isEmpty then d
  else d.filter (fun r => selectedStates.contains r.state)

/-- `state_filtered.dropna(subset=value_cols, how="all")` (line 539):
keep a row iff at least one configured counter is present. -/
def dropAllAbsent (cols : List StateCol) (t : List StateRow) : List StateRow :=
  t.filter (fun r => cols.any (fun c => (getCol r c).isSome))

/-- One row of the long-form (melted) table. -/
structure LongRow where
  state : String
  measureName : String
  performance : String
  hospitals : Option Rat
deriving DecidableEq, Repr

/-- `state_filtered.melt(id_vars=["State", "Measure Name"],
value_vars=value_cols, var_name="Performance", value_name="Hospitals")`
(lines 542-547): column-major wide-to-long reshape; melt keeps absent
values (pandas NaN) as absent long cells. -/
def melt (cols : List StateCol) (t : List StateRow) : List LongRow :=
  (cols.map (fun c => t.map (fun r =>
    { state := r.state
    , measureName := r.measureName
    , performance := stateColName c
    , hospitals := getCol r c : LongRow }))).flatten

/-- The tab-5 pipeline: `none` models the `st.stop()` "unavailable"
branch for a group without benchmark config; otherwise filter, drop
all-absent rows, and melt. -/
def stateBenchmark (g : String) (t : List StateRow) (ms ss : List String) :
    Option (List LongRow) :=
  (benchmarkConfig g).map
    (fun cols => melt cols (dropAllAbsent cols (filterState t ms ss)))

lemma sum_map_add_rat {β : Type} (f g : β → Rat) :
    ∀ ks : List β, (ks.map (fun b => f b + g b)).sum = (ks.map f).sum + (ks.map g).sum := by
  intro ks
  induction ks with
  | nil => simp
  | cons b ks ih =>
    simp only [List.map_cons, List.sum_cons, ih]
    ring

lemma filterMap_sum_getD {α : Type} (f : α → Option Rat) (l : List α) :
    (l.filterMap f).sum = (l.map (fun a => (f a).getD 0)).sum := by
  induction l with
  | nil => rfl
  | cons a l ih =>
    rw [List.filterMap_cons]
    cases h : f a <;> simp [h, ih]

lemma melt_group_sum (cols : List StateCol) (l : List StateRow) (s m : String) :
    (((melt cols l).filter
        (fun lr => lr.state = s ∧ lr.measureName = m)).filterMap
      (fun lr => lr.hospitals)).sum =
    ((l.filter (fun r => r.state = s ∧ r.measureName = m)).map
      (fun r => (cols.filterMap (fun c => getCol r c)).sum)).sum := by
  induction cols with
  | nil =>
    simp [melt]
  | cons c cols ih =>
    have hmelt : melt (c :: cols) l =
        (l.map (fun r =>
          { state := r.state
          , measureName := r.measureName
          , performance := stateColName c
          , hospitals := getCol r c : LongRow })) ++ melt cols l := by
      simp [melt]
    rw [hmelt, List.filter_append, List.filterMap_append, List.sum_append, ih]
    have hfil : (l.map (fun r =>
        { state := r.state
        , measureName := r.measureName
        , performance := stateColName c
        , hospitals := getCol r c : LongRow })).filter
          (fun lr => lr.state = s ∧ lr.measureName = m) =
        (l.filter (fun r => r.state = s ∧ r.measureName = m)).map
          (fun r =>
            { state := r.state
            , measureName := r.measureName
            , performance := stateColName c
            , hospitals := getCol r c : LongRow }) := by
      rw [List.filter_map]
      rfl
    rw [hfil, List.filterMap_map]
    have hcomp : ((fun lr : LongRow => lr.hospitals) ∘ fun r : StateRow =>
        ({ state := r.state
         , measureName := r.measureName
         , performance := stateColName c
         , hospitals := getCol r c } : LongRow)) =
        fun r => getCol r c := rfl
    rw [hcomp]
    have hrow : ((l.filter (fun r => r.state = s ∧ r.measureName = m)).map
        (fun r => ((c :: cols).filterMap (fun c' => getCol r c')).sum)).sum =
        ((l.filter (fun r => r.state = s ∧ r.measureName = m)).map
          (fun r => (getCol r c).getD 0 +
            (cols.filterMap (fun c' => getCol r c')).sum)).sum := by
      congr 1
      apply List.map_congr_left
      intro r _
      rw [List.filterMap_cons]
      cases h : getCol r c <;> simp [h]
    rw [hrow, sum_map_add_rat (fun r => (getCol r c).getD 0)
      (fun r => (cols.filterMap (fun c' => getCol r c')).sum)]
    have hleft : ((l.filter (fun r => r.state = s ∧ r.measureName = m)).filterMap
        (fun r => getCol r c)).sum =
        ((l.filter (fun r => r.state = s ∧ r.measureName = m)).map
          (fun r => (getCol r c).getD 0)).sum :=
      filterMap_sum_getD _ _
    rw [hleft]

/--
C5 (confirmed): the state benchmark view's wide-to-long reshape
preserves totals: for every state and measure, the sum of the long-form
"Hospitals" values attributed to that state and measure equals the sum
of the configured counter columns over the kept wide rows for that
state and measure, absent counters contributing to neither side.
-/
theorem c5_melt_preserves_totals (g : String) (cols : List StateCol)
    (t : List StateRow) (ms ss : List String) (s m : String)
    (h : benchmarkConfig g = some cols) :
    stateBenchmark g t ms ss =
      some (melt cols (dropAllAbsent cols (filterState t ms ss))) ∧
    (((melt cols (dropAllAbsent cols (filterState t ms ss))).filter
        (fun lr => lr.state = s ∧ lr.measureName = m)).filterMap
      (fun lr => lr.hospitals)).sum =
    (((dropAllAbsent cols (filterState t ms ss)).filter
        (fun r => r.state = s ∧ r.measureName = m)).map
      (fun r => (cols.filterMap (fun c => getCol r c)).sum)).sum := by
  constructor
  · simp [stateBenchmark, h]
  · exact melt_group_sum cols _ s m

/-- A concrete state-table row with two present counters. -/
def stateRowEx1 : StateRow :=
  { state := "CA"
  , measureName := "Rate of readmission for CABG"
  , worse := some 2
  , same := none
  , better := some 5
  , tooFew := none
  , fewer := none
  , average := none
  , more := none
  , tooSmall := none }

/-- Witness for C5 with the Condition-Specific group's config at a
concrete one-row state table. -/
theorem c5_melt_preserves_totals_witness :
    stateBenchmark "Condition-Specific 30-Day Readmission Rates" [stateRowEx1]
        ["Rate of readmission for CABG"] [] =
      some (melt [.better, .same, .worse, .tooSmall]
        (dropAllAbsent [.better, .same, .worse, .tooSmall]
          (filterState [stateRowEx1] ["Rate of readmission for CABG"] []))) ∧
    (((melt [.better, .same, .worse, .tooSmall]
        (dropAllAbsent [.better, .same, .worse, .tooSmall]
          (filterState [stateRowEx1] ["Rate of readmission for CABG"] []))).filter
        (fun lr => lr.state = "CA" ∧
          lr.measureName = "Rate of readmission for CABG")).filterMap
      (fun lr => lr.hospitals)).sum =
    (((dropAllAbsent [.better, .same, .worse, .tooSmall]
        (filterState [stateRowEx1] ["Rate of readmission for CABG"] [])).filter
        (fun r => r.state = "CA" ∧
          r.measureName = "Rate of readmission for CABG")).map
      (fun r => (([.better, .same, .worse, .tooSmall] :
        List StateCol).filterMap (fun c => getCol r c)).sum)).sum :=
  c5_melt_preserves_totals "Condition-Specific 30-Day Readmission Rates"
    [.better, .same, .worse, .tooSmall] [stateRowEx1]
    ["Rate of readmission for CABG"] [] "CA" "Rate of readmission for CABG"
    (by decide)

/--
C8 (confirmed): a filtered state-table row is dropped iff every
configured counter column is absent in it; a row with at least one
present counter is kept; and appending an all-absent row changes
nothing in the long-form output.
-/
theorem c8_drop_all_absent (cols : List StateCol) (t : List StateRow)
    (r : StateRow) :
    (r ∈ dropAllAbsent cols t ↔
      r ∈ t ∧ ∃ c ∈ cols, (getCol r c).isSome) ∧
    ((∀ c ∈ cols, getCol r c = none) →
      melt cols (dropAllAbsent cols (t ++ [r])) =
        melt cols (dropAllAbsent cols t)) := by
  constructor
  · rw [dropAllAbsent, List.mem_filter]
    simp
  · intro hall
    have hdrop : dropAllAbsent cols (t ++ [r]) = dropAllAbsent cols t := by
      rw [dropAllAbsent, dropAllAbsent, List.filter_append]
      have : ([r].filter (fun x => cols.any (fun c => (getCol x c).isSome))) = [] := by
        simp only [List.filter_eq_nil_iff]
        intro x hx
        have hxr : x = r := by simpa using hx
        subst hxr
        simp only [List.any_eq_true, not_exists]
        intro c
        intro hc
        rcases hc with ⟨hcm, hcs⟩
        rw [hall c hcm] at hcs
        simp at hcs
      rw [this, List.append_nil]
    rw [hdrop]

/-- An all-absent state-table row (relative to the non-EDAC config). -/
def stateRowEx2 : StateRow :=
  { state := "TX"
  , measureName := "Rate of readmission for CABG"
  , worse := none
  , same := none
  , better := none
  , tooFew := some 7
  , fewer := none
  , average := none
  , more := none
  , tooSmall := none }

/-- Witness for C8: the row with a present counter is kept, and an
all-absent row (its only present counter is outside the config)
contributes nothing. -/
theorem c8_drop_all_absent_witness :
    stateRowEx1 ∈ dropAllAbsent [.better, .same, .worse, .tooSmall]
      [stateRowEx1] ∧
    melt [.better, .same, .worse, .tooSmall]
        (dropAllAbsent [.better, .same, .worse, .tooSmall]
          ([stateRowEx1] ++ [stateRowEx2])) =
      melt [.better, .same, .worse, .tooSmall]
        (dropAllAbsent [.better, .same, .worse, .tooSmall] [stateRowEx1]) :=
  ⟨(c8_drop_all_absent [.better, .same, .worse, .tooSmall]
      [stateRowEx1] stateRowEx1).1.mpr
      ⟨by decide, ⟨.better, by decide, by decide⟩⟩,
    (c8_drop_all_absent [.better, .same, .worse, .tooSmall]
      [stateRowEx1] stateRowEx2).2 (by decide)⟩

/-- The selectable measure group names, in order. -/
def measureGroupNames : List String := MEASURE_GROUPS.map (fun p => p.1)

/--
C9 (confirmed): every selectable measure group (every key of
MEASURE_GROUPS) has a benchmark configuration, so the state benchmark
view's "unavailable" branch is unreachable for selectable groups.
-/
theorem c9_benchmark_config_total (g : String) (h : g ∈ measureGroupNames) :
    (benchmarkConfig g).isSome ∧
    ∀ (t : List StateRow) (ms ss : List String),
      (stateBenchmark g t ms ss).isSome := by
  have hc : (benchmarkConfig g).isSome := by
    fin_cases h <;> decide
  refine ⟨hc, ?_⟩
  intro t ms ss
  rw [stateBenchmark]
  obtain ⟨cols, hcols⟩ := Option.isSome_iff_exists.mp hc
  rw [hcols]
  rfl

/-- Witness for C9 at the EDAC group. -/
theorem c9_benchmark_config_total_witness :
    (benchmarkConfig "EDAC – Excess Hospital Return Days").isSome ∧
      (stateBenchmark "EDAC – Excess Hospital Return Days" [] [] []).isSome :=
  ⟨(c9_benchmark_config_total "EDAC – Excess Hospital Return Days"
      (by decide)).1,
    (c9_benchmark_config_total "EDAC – Excess Hospital Return Days"
      (by decide)).2 [] [] []⟩

/--
C6 (confirmed): with an empty measure selection the filter yields a
zero-row table for both loaded tables, and every downstream aggregation
view on that empty table is an empty, zero, or absent result.  In this
embedding every view is a total function, so no exception path exists.
-/
theorem c6_empty_selection (t : List HospitalRow) (ts : List StateRow)
    (ss : List String) (g : String) :
    filterHospital t [] ss = [] ∧
    filterState ts [] ss = [] ∧
    coverage (filterHospital t [] ss) = none ∧
    avgScore (filterHospital t [] ss) = none ∧
    perfKeys (filterHospital t [] ss) = [] ∧
    state_avg (filterHospital t [] ss) = [] ∧
    ranked (filterHospital t [] ss) = [] ∧
    worst10 (filterHospital t [] ss) = [] ∧
    best10 (filterHospital t [] ss) = [] ∧
    scatterRows (filterHospital t [] ss) = [] ∧
    top_vol (filterHospital t [] ss) = [] ∧
    (stateBenchmark g ts [] ss = none ∨ stateBenchmark g ts [] ss = some []) := by
  have hH : filterHospital t [] ss = [] := by
    simp [filterHospital]
  have hS : filterState ts [] ss = [] := by
    simp [filterState]
  refine ⟨hH, hS, ?_, ?_, ?_, ?_, ?_, ?_, ?_, ?_, ?_, ?_⟩
  · rw [hH]; rfl
  · rw [hH]; rfl
  · rw [hH]; rfl
  · rw [hH]; rfl
  · rw [hH]; rfl
  · rw [hH]; rfl
  · rw [hH]; rfl
  · rw [hH]; rfl
  · rw [hH]; rfl
  · cases hc : benchmarkConfig g with
    | none =>
      left
      simp [stateBenchmark, hc]
    | some cols =>
      right
      have hm : melt cols [] = [] := by
        simp [melt, List.flatten_eq_nil_iff]
      simp [stateBenchmark, hc, hS, dropAllAbsent, hm]

end UHV
